import Mathlib

/-!
Verification development for the rightmove-scraper repository.

This file gives a shallow embedding, in Lean 4, of the core of the
incremental-discovery pipeline:

* the deduplication ledger (`src/storage/database.py`): the
  `seen_properties` table, `is_property_seen`, `mark_property_as_seen`,
  `cleanup_old_properties`, and the single-column → composite-key
  migration `_migrate_unique_constraint`;
* the price filter (`src/scrapers/base.py`: `filter_by_price`);
* the per-person price normalization of the Rightmove extractor
  (`src/scrapers/rightmove.py`: the tail of
  `_extract_property_from_element`);
* configuration loading (`src/config/sheets.py`: `load_search_configs`,
  including the `config_id` construction from the row index and the MD5
  of the search URL);
* the per-configuration orchestration step and the cycle loop
  (`src/main.py`: `_process_search_config`, `run_scraping_cycle`) and the
  zero-count guard of `send_summary_notification`
  (`src/notifications/telegram.py`).

Modelling conventions:

* SQL `TIMESTAMP` values are modelled as integers (`Int`), ordered as the
  ISO-8601 strings stored by SQLite are ordered; `CURRENT_TIMESTAMP` and
  `datetime('now', ...)` become an explicit `now` parameter, measured in
  days so that `datetime('now', '-N days')` is `now - N`.
* Python `float` arithmetic on prices is modelled exactly over `ℚ`; every
  numeric value appearing in the claims is exactly representable, so no
  rounding discrepancy arises.
* The SQLite table is modelled as a list of rows in insertion order;
  `INSERT ... ON CONFLICT DO UPDATE` becomes an explicit branch on the
  existence of the conflicting key.
* Python regular-expression searches used by the code
  (`£([\d,]+)\s*pp/pcm` and `£([\d,]+)`) are implemented as left-to-right
  scanners; both patterns are backtracking-free, so the greedy maximal-run
  scan is exactly `re.search`.
-/

namespace Scraper

/-! ## The deduplication ledger (`src/storage/database.py`)

A row of the `seen_properties` table. `title`, `price`, `location` are
nullable columns, hence `Option String`. The SQL schema declares
`UNIQUE(property_url, search_config_id)`; the operations below preserve
that invariant, and the theorems state it where needed.
-/

structure SeenRow where
  property_url : String
  search_config_id : String
  title : Option String
  price : Option String
  location : Option String
  first_seen : Int
  last_seen : Int
deriving DecidableEq, Repr

/-- The ledger: the `seen_properties` table as a list of rows. -/
abbrev Ledger := List SeenRow

/-- Does a row match the composite key `(property_url, search_config_id)`? -/
def SeenRow.matchesKey (e : SeenRow) (url cfg : String) : Bool :=
  e.property_url = url ∧ e.search_config_id = cfg

/-- `is_property_seen` (database.py, lines 102-109): point lookup on the
composite key `(property_url, search_config_id)`. -/
def is_property_seen (db : Ledger) (url cfg : String) : Bool :=
  db.any (fun e => e.matchesKey url cfg)

/-- SQL `COALESCE(excluded.c, c)`: the newly supplied value if non-null,
otherwise the stored one. -/
def coalesce (newVal oldVal : Option String) : Option String :=
  match newVal with
  | some v => some v
  | none => oldVal

/-- The `DO UPDATE SET` part of the upsert: refresh `last_seen` and
coalesce the metadata columns, leaving the key and `first_seen` alone. -/
def SeenRow.refresh (e : SeenRow) (title price location : Option String)
    (now : Int) : SeenRow :=
  { e with
    last_seen := now
    title := coalesce title e.title
    price := coalesce price e.price
    location := coalesce location e.location }

/-- `mark_property_as_seen` (database.py, lines 111-125):
`INSERT ... ON CONFLICT(property_url, search_config_id) DO UPDATE SET
last_seen = CURRENT_TIMESTAMP, title = COALESCE(excluded.title, title), ...`.
A fresh row gets `first_seen = last_seen = now` (the column defaults);
a conflicting key has its row refreshed in place. -/
def mark_property_as_seen (db : Ledger) (url cfg : String)
    (title price location : Option String) (now : Int) : Ledger :=
  if is_property_seen db url cfg then
    db.map (fun e =>
      if e.matchesKey url cfg then e.refresh title price location now else e)
  else
    db ++ [⟨url, cfg, title, price, location, now, now⟩]

/-- `cleanup_old_properties` (database.py, lines 141-150):
`DELETE FROM seen_properties WHERE last_seen < datetime('now', '-D days')`.
Returns the surviving table together with `cursor.rowcount`, the number of
deleted rows (the code logs this count). -/
def cleanup_old_properties (db : Ledger) (days_old : Int) (now : Int) :
    Ledger × Nat :=
  let kept := db.filter (fun e => ¬ (e.last_seen < now - days_old))
  (kept, db.length - kept.length)

/-- Number of rows carrying a given composite key. -/
def countKey (db : Ledger) (url cfg : String) : Nat :=
  (db.filter (fun e => e.matchesKey url cfg)).length

/-- First row carrying a given composite key, if any. -/
def findKey (db : Ledger) (url cfg : String) : Option SeenRow :=
  db.find? (fun e => e.matchesKey url cfg)

/-! ### Basic ledger lemmas -/

@[simp]
theorem SeenRow.refresh_matchesKey (e : SeenRow) (t p l : Option String)
    (n : Int) (u c : String) :
    (e.refresh t p l n).matchesKey u c = e.matchesKey u c := by
  simp [SeenRow.refresh, SeenRow.matchesKey]

@[simp]
theorem coalesce_none (o : Option String) : coalesce none o = o := rfl

theorem coalesce_self (a b : Option String) : coalesce a (coalesce a b) = coalesce a b := by
  cases a <;> rfl

/-- The conditional refresh used inside `mark_property_as_seen` never
changes a row's composite key. -/
theorem matchesKey_condRefresh (e : SeenRow) (url cfg u c : String)
    (t p l : Option String) (n : Int) :
    ((if e.matchesKey url cfg then e.refresh t p l n else e).matchesKey u c)
      = e.matchesKey u c := by
  by_cases h : e.matchesKey url cfg = true <;> simp [h]

theorem is_property_seen_map_condRefresh (db : Ledger) (url cfg u c : String)
    (t p l : Option String) (n : Int) :
    is_property_seen
      (db.map (fun e => if e.matchesKey url cfg then e.refresh t p l n else e)) u c
      = is_property_seen db u c := by
  induction db with
  | nil => rfl
  | cons e db ih =>
      simp only [is_property_seen, List.map_cons, List.any_cons] at *
      rw [matchesKey_condRefresh, ih]

/-- Marking a listing under one config never changes whether any key with a
different `search_config_id` is seen. -/
theorem is_property_seen_mark_of_cfg_ne (db : Ledger) (url url' c c' : String)
    (t p l : Option String) (n : Int) (h : c ≠ c') :
    is_property_seen (mark_property_as_seen db url' c' t p l n) url c
      = is_property_seen db url c := by
  unfold mark_property_as_seen
  by_cases hs : is_property_seen db url' c' = true
  · rw [if_pos hs, is_property_seen_map_condRefresh]
  · rw [if_neg hs]
    have hnew : (SeenRow.matchesKey ⟨url', c', t, p, l, n, n⟩ url c) = false := by
      simp only [SeenRow.matchesKey, decide_eq_false_iff_not]
      rintro ⟨-, hc⟩
      exact h hc.symm
    simp [is_property_seen, hnew]

theorem is_property_seen_mark_self (db : Ledger) (url cfg : String)
    (t p l : Option String) (n : Int) :
    is_property_seen (mark_property_as_seen db url cfg t p l n) url cfg = true := by
  unfold mark_property_as_seen
  by_cases hs : is_property_seen db url cfg = true
  · rw [if_pos hs, is_property_seen_map_condRefresh]; exact hs
  · rw [if_neg hs]
    simp [is_property_seen, SeenRow.matchesKey]

theorem countKey_map_condRefresh (db : Ledger) (url cfg u c : String)
    (t p l : Option String) (n : Int) :
    countKey
      (db.map (fun e => if e.matchesKey url cfg then e.refresh t p l n else e)) u c
      = countKey db u c := by
  induction db with
  | nil => rfl
  | cons e db ih =>
      simp only [countKey, List.map_cons, List.filter_cons] at *
      rw [matchesKey_condRefresh]
      by_cases h : e.matchesKey u c = true <;> simp [h] at * <;> omega

theorem countKey_eq_zero_of_not_seen (db : Ledger) (url cfg : String)
    (h : is_property_seen db url cfg = false) : countKey db url cfg = 0 := by
  induction db with
  | nil => rfl
  | cons e db ih =>
      simp only [is_property_seen, List.any_cons, Bool.or_eq_false_iff] at h
      simp only [countKey, List.filter_cons, h.1]
      exact ih h.2

theorem countKey_pos_of_seen (db : Ledger) (url cfg : String)
    (h : is_property_seen db url cfg = true) : 1 ≤ countKey db url cfg := by
  induction db with
  | nil => simp [is_property_seen] at h
  | cons e db ih =>
      simp only [is_property_seen, List.any_cons, Bool.or_eq_true] at h
      simp only [countKey, List.filter_cons]
      rcases h with h | h
      · simp only [h, if_true, List.length_cons]
        omega
      · by_cases he : e.matchesKey url cfg = true
        · simp only [he, if_true, List.length_cons]
          omega
        · simp only [he, if_false]
          exact ih h

theorem findKey_map_condRefresh (db : Ledger) (url cfg : String)
    (t p l : Option String) (n : Int) :
    findKey
      (db.map (fun e => if e.matchesKey url cfg then e.refresh t p l n else e)) url cfg
      = (findKey db url cfg).map (fun e => e.refresh t p l n) := by
  induction db with
  | nil => rfl
  | cons e db ih =>
      simp only [findKey, List.map_cons, List.find?_cons] at *
      rw [matchesKey_condRefresh]
      by_cases h : e.matchesKey url cfg = true
      · simp [h]
      · simp only [h]
        simpa using ih

theorem coalesce_absorb (a : Option String) : coalesce a a = a := by
  cases a <;> rfl

theorem mark_of_seen (db : Ledger) (url cfg : String) (t p l : Option String)
    (n : Int) (h : is_property_seen db url cfg = true) :
    mark_property_as_seen db url cfg t p l n
      = db.map (fun e => if e.matchesKey url cfg then e.refresh t p l n else e) :=
  if_pos h

theorem mark_of_not_seen (db : Ledger) (url cfg : String) (t p l : Option String)
    (n : Int) (h : is_property_seen db url cfg = false) :
    mark_property_as_seen db url cfg t p l n
      = db ++ [⟨url, cfg, t, p, l, n, n⟩] :=
  if_neg (by simp [h])

theorem findKey_eq_none_of_not_seen (db : Ledger) (url cfg : String)
    (h : is_property_seen db url cfg = false) : findKey db url cfg = none := by
  induction db with
  | nil => rfl
  | cons e db ih =>
      simp only [is_property_seen, List.any_cons, Bool.or_eq_false_iff] at h
      simp only [findKey, List.find?_cons, h.1]
      exact ih h.2

theorem not_seen_of_findKey_eq_none (db : Ledger) (url cfg : String)
    (h : findKey db url cfg = none) : is_property_seen db url cfg = false := by
  induction db with
  | nil => rfl
  | cons e db ih =>
      by_cases he : e.matchesKey url cfg = true
      · simp [findKey, List.find?_cons, he] at h
      · simp only [findKey, List.find?_cons, he] at h
        simp only [is_property_seen, List.any_cons, he, Bool.false_or]
        exact ih h

theorem seen_of_findKey_eq_some (db : Ledger) (url cfg : String) (e0 : SeenRow)
    (h : findKey db url cfg = some e0) : is_property_seen db url cfg = true := by
  by_cases hs : is_property_seen db url cfg = true
  · exact hs
  · rw [findKey_eq_none_of_not_seen db url cfg (by simpa using hs)] at h
    cases h

theorem findKey_append_single (db : Ledger) (row : SeenRow) (url cfg : String)
    (h : findKey db url cfg = none) :
    findKey (db ++ [row]) url cfg
      = if row.matchesKey url cfg then some row else none := by
  induction db with
  | nil =>
      simp only [List.nil_append, findKey, List.find?_cons]
      cases hrow : row.matchesKey url cfg <;> simp [hrow]
  | cons e db ih =>
      by_cases he : e.matchesKey url cfg = true
      · simp [findKey, List.find?_cons, he] at h
      · simp only [findKey, List.find?_cons, he] at h ⊢
        simp only [List.cons_append, List.find?_cons, he]
        exact ih h

theorem countKey_append_single (db : Ledger) (row : SeenRow) (url cfg : String) :
    countKey (db ++ [row]) url cfg
      = countKey db url cfg + (if row.matchesKey url cfg then 1 else 0) := by
  simp only [countKey, List.filter_append, List.length_append]
  by_cases h : row.matchesKey url cfg = true <;> simp [h]

/-! ## Claims C1 and C2 -/

/-- Claim C1: ledger entries are unique on the composite key
`(listingUrl, configId)`, not on the URL alone.  Recording a URL under a
config `c2` never changes whether it is seen under a different config `c1`
(in particular, from an empty ledger, `is_property_seen` for `c1` stays
false while only `c2` has recorded it), and recording the same URL under
two distinct configs yields two independent rows, one per key. -/
theorem claim_C1 (db : Ledger) (url c1 c2 : String) (t p l : Option String)
    (n1 n2 : Int) (h : c1 ≠ c2) :
    is_property_seen (mark_property_as_seen db url c2 t p l n1) url c1
      = is_property_seen db url c1
    ∧ is_property_seen (mark_property_as_seen [] url c2 t p l n1) url c1 = false
    ∧ (mark_property_as_seen (mark_property_as_seen [] url c1 t p l n1)
        url c2 t p l n2).length = 2
    ∧ countKey (mark_property_as_seen (mark_property_as_seen [] url c1 t p l n1)
        url c2 t p l n2) url c1 = 1
    ∧ countKey (mark_property_as_seen (mark_property_as_seen [] url c1 t p l n1)
        url c2 t p l n2) url c2 = 1 := by
  have hne : ∀ cA cB : String, cA ≠ cB →
      (SeenRow.matchesKey ⟨url, cB, t, p, l, n1, n1⟩ url cA) = false := by
    intro cA cB hAB
    simp only [SeenRow.matchesKey, decide_eq_false_iff_not]
    rintro ⟨-, hc⟩
    exact hAB hc.symm
  have h1 : mark_property_as_seen [] url c1 t p l n1
      = [⟨url, c1, t, p, l, n1, n1⟩] := rfl
  have hseen2 : is_property_seen [(⟨url, c1, t, p, l, n1, n1⟩ : SeenRow)] url c2
      = false := by
    simp [is_property_seen, hne c2 c1 (Ne.symm h)]
  have h2 : mark_property_as_seen (mark_property_as_seen [] url c1 t p l n1)
      url c2 t p l n2
      = [⟨url, c1, t, p, l, n1, n1⟩, ⟨url, c2, t, p, l, n2, n2⟩] := by
    rw [h1, mark_of_not_seen _ _ _ _ _ _ _ hseen2]
    rfl
  refine ⟨is_property_seen_mark_of_cfg_ne db url url c1 c2 t p l n1 h, ?_, ?_, ?_, ?_⟩
  · rw [is_property_seen_mark_of_cfg_ne [] url url c1 c2 t p l n1 h]
    rfl
  · rw [h2]
    rfl
  · rw [h2]
    simp [countKey, SeenRow.matchesKey, Ne.symm h]
  · rw [h2]
    simp [countKey, SeenRow.matchesKey, h]

/-- Closed witness for C1 at concrete inputs. -/
theorem claim_C1_witness :
    is_property_seen (mark_property_as_seen [] "https://x/1" "config_b"
        (some "T") none none 3) "https://x/1" "config_a"
      = is_property_seen [] "https://x/1" "config_a"
    ∧ is_property_seen (mark_property_as_seen [] "https://x/1" "config_b"
        (some "T") none none 3) "https://x/1" "config_a" = false
    ∧ (mark_property_as_seen (mark_property_as_seen [] "https://x/1" "config_a"
        (some "T") none none 3) "https://x/1" "config_b" (some "T") none none 4).length = 2
    ∧ countKey (mark_property_as_seen (mark_property_as_seen [] "https://x/1" "config_a"
        (some "T") none none 3) "https://x/1" "config_b" (some "T") none none 4)
        "https://x/1" "config_a" = 1
    ∧ countKey (mark_property_as_seen (mark_property_as_seen [] "https://x/1" "config_a"
        (some "T") none none 3) "https://x/1" "config_b" (some "T") none none 4)
        "https://x/1" "config_b" = 1 :=
  claim_C1 [] "https://x/1" "config_a" "config_b" (some "T") none none 3 4 (by decide)

/-- Claim C2: `mark_property_as_seen` is an idempotent upsert.  Starting
from a ledger satisfying the table's uniqueness constraint at the key,
calling it twice with identical arguments leaves exactly one row for the
key and adds no row on the second call; if the key was absent the row has
`first_seen` from the first call (unchanged by the second) and `last_seen`
from the second; if the key was present, the stored metadata becomes
`COALESCE(input, old)` per field — so a `none` input never overwrites an
existing value — while `first_seen` is untouched and `last_seen` is
refreshed. -/
theorem claim_C2 (db : Ledger) (url cfg : String) (t p l : Option String)
    (n1 n2 : Int) (hU : countKey db url cfg ≤ 1) :
    countKey (mark_property_as_seen (mark_property_as_seen db url cfg t p l n1)
        url cfg t p l n2) url cfg = 1
    ∧ (mark_property_as_seen (mark_property_as_seen db url cfg t p l n1)
        url cfg t p l n2).length
      = (mark_property_as_seen db url cfg t p l n1).length
    ∧ (findKey db url cfg = none →
        findKey (mark_property_as_seen (mark_property_as_seen db url cfg t p l n1)
          url cfg t p l n2) url cfg = some ⟨url, cfg, t, p, l, n1, n2⟩)
    ∧ (∀ e0, findKey db url cfg = some e0 →
        findKey (mark_property_as_seen (mark_property_as_seen db url cfg t p l n1)
          url cfg t p l n2) url cfg
        = some ⟨url, cfg, coalesce t e0.title, coalesce p e0.price,
            coalesce l e0.location, e0.first_seen, n2⟩)
    ∧ (∀ o : Option String, coalesce none o = o) := by
  have hseen1 : is_property_seen (mark_property_as_seen db url cfg t p l n1)
      url cfg = true := is_property_seen_mark_self db url cfg t p l n1
  have hmark2 := mark_of_seen (mark_property_as_seen db url cfg t p l n1)
    url cfg t p l n2 hseen1
  refine ⟨?_, ?_, ?_, ?_, fun o => rfl⟩
  · rw [hmark2, countKey_map_condRefresh]
    by_cases hs : is_property_seen db url cfg = true
    · rw [mark_of_seen db url cfg t p l n1 hs, countKey_map_condRefresh]
      exact le_antisymm hU (countKey_pos_of_seen db url cfg hs)
    · rw [mark_of_not_seen db url cfg t p l n1 (by simpa using hs)]
      rw [countKey_append_single,
        countKey_eq_zero_of_not_seen db url cfg (by simpa using hs)]
      simp [SeenRow.matchesKey]
  · rw [hmark2, List.length_map]
  · intro hnone
    have hs := not_seen_of_findKey_eq_none db url cfg hnone
    rw [hmark2, findKey_map_condRefresh,
      mark_of_not_seen db url cfg t p l n1 hs,
      findKey_append_single db _ url cfg hnone]
    rw [if_pos (by simp [SeenRow.matchesKey])]
    simp [SeenRow.refresh, coalesce_absorb]
  · intro e0 hsome
    have hs := seen_of_findKey_eq_some db url cfg e0 hsome
    have hsome' : db.find? (fun e => e.matchesKey url cfg) = some e0 := hsome
    have hkey := List.find?_some hsome'
    simp only [SeenRow.matchesKey, decide_eq_true_eq] at hkey
    rw [hmark2, findKey_map_condRefresh,
      mark_of_seen db url cfg t p l n1 hs,
      findKey_map_condRefresh, hsome]
    simp [SeenRow.refresh, coalesce_self, hkey.1, hkey.2]

/-- Closed witness for C2: the key starts absent (empty ledger), and also a
second scenario folded in via the `some` branch is exercised separately in
the migration examples. -/
theorem claim_C2_witness :
    countKey (mark_property_as_seen (mark_property_as_seen [] "https://x/2" "config_a"
        (some "T") (some "£900 pcm") none 5) "https://x/2" "config_a"
        (some "T") (some "£900 pcm") none 9) "https://x/2" "config_a" = 1
    ∧ (mark_property_as_seen (mark_property_as_seen [] "https://x/2" "config_a"
        (some "T") (some "£900 pcm") none 5) "https://x/2" "config_a"
        (some "T") (some "£900 pcm") none 9).length
      = (mark_property_as_seen [] "https://x/2" "config_a"
        (some "T") (some "£900 pcm") none 5).length
    ∧ (findKey [] "https://x/2" "config_a" = none →
        findKey (mark_property_as_seen (mark_property_as_seen [] "https://x/2" "config_a"
          (some "T") (some "£900 pcm") none 5) "https://x/2" "config_a"
          (some "T") (some "£900 pcm") none 9) "https://x/2" "config_a"
        = some ⟨"https://x/2", "config_a", some "T", some "£900 pcm", none, 5, 9⟩)
    ∧ (∀ e0, findKey [] "https://x/2" "config_a" = some e0 →
        findKey (mark_property_as_seen (mark_property_as_seen [] "https://x/2" "config_a"
          (some "T") (some "£900 pcm") none 5) "https://x/2" "config_a"
          (some "T") (some "£900 pcm") none 9) "https://x/2" "config_a"
        = some ⟨"https://x/2", "config_a", coalesce (some "T") e0.title,
            coalesce (some "£900 pcm") e0.price, coalesce none e0.location,
            e0.first_seen, 9⟩)
    ∧ (∀ o : Option String, coalesce none o = o) :=
  claim_C2 [] "https://x/2" "config_a" (some "T") (some "£900 pcm") none 5 9
    (by decide)

/-! ## String helpers

Character-list implementations of the Python string operations the
scrapers use (`in`, `replace`, `lower`, `strip`, `str.isdigit`), written
so that every definition reduces in the kernel.
-/

/-- Value of a digit string, most significant first. -/
def digitsToNat (ds : List Char) : Nat :=
  ds.foldl (fun a c => 10 * a + (c.toNat - 48)) 0

/-- Python `needle in hay` on character lists. -/
def chContains (needle : List Char) : List Char → Bool
  | [] => needle.isEmpty
  | c :: cs => needle.isPrefixOf (c :: cs) || chContains needle cs

/-- Python `needle in hay` on strings. -/
def strContains (hay needle : String) : Bool :=
  chContains needle.data hay.data

/-- Python `str.lower()` (ASCII; the strings involved are ASCII apart
from `£`, which `Char.toLower` leaves alone). -/
def lowerStr (s : String) : String :=
  ⟨s.data.map Char.toLower⟩

/-- Python `str.strip()`: drop leading and trailing whitespace. -/
def stripChars (cs : List Char) : List Char :=
  ((cs.dropWhile Char.isWhitespace).reverse.dropWhile Char.isWhitespace).reverse

/-- One fuel-indexed step list for Python `str.replace` (left-to-right,
non-overlapping).  The fuel starts at the list length; each step consumes
at least one character, so the fuel never runs out. -/
def chReplaceAux (pat rep : List Char) : Nat → List Char → List Char
  | 0, l => l
  | _, [] => []
  | fuel + 1, c :: cs =>
      if pat ≠ [] ∧ pat.isPrefixOf (c :: cs) then
        rep ++ chReplaceAux pat rep fuel ((c :: cs).drop pat.length)
      else
        c :: chReplaceAux pat rep fuel cs

/-- Python `s.replace(pat, rep)`. -/
def strReplace (s pat rep : String) : String :=
  ⟨chReplaceAux pat.data rep.data s.data.length s.data⟩

/-- Python `line.isdigit()` (ASCII digits). -/
def lineIsDigit (s : String) : Bool :=
  ¬ s.data.isEmpty && s.data.all Char.isDigit

/-! ## Exact rational arithmetic helpers

Python `float` arithmetic on prices is modelled exactly over `ℚ`.  The
helpers below are written with `mkRat` so that they evaluate by kernel
reduction; the bridge lemmas restate them with ordinary field
operations, matching the formulas in the source.
-/

/-- `price * 52 / 12` (base.py line 57): weekly-to-monthly conversion. -/
def weekly_to_monthly (w : ℚ) : ℚ :=
  mkRat (w.num * 52) (w.den * 12)

theorem weekly_to_monthly_eq (w : ℚ) : weekly_to_monthly w = w * 52 / 12 := by
  have hd : ((w.den : ℚ)) ≠ 0 := by
    exact_mod_cast w.den_nz
  rw [weekly_to_monthly, Rat.mkRat_eq_div]
  conv_rhs => rw [← Rat.num_div_den w]
  push_cast
  field_simp

/-- `total_price / bedrooms` (rightmove.py line 543): float division of the
monthly total by the bedroom count. -/
def per_person_price (total : ℚ) (bedrooms : Nat) : ℚ :=
  mkRat total.num (total.den * bedrooms)

theorem per_person_price_eq (total : ℚ) (b : Nat) :
    per_person_price total b = total / b := by
  rw [per_person_price, Rat.mkRat_eq_div]
  rcases Nat.eq_zero_or_pos b with hb | hb
  · subst hb
    simp
  · have hd : ((total.den : ℚ)) ≠ 0 := by
      exact_mod_cast total.den_nz
    have hbq : ((b : ℚ)) ≠ 0 := by
      exact_mod_cast Nat.pos_iff_ne_zero.mp hb
    conv_rhs => rw [← Rat.num_div_den total]
    push_cast
    field_simp

/-- Python `f"{q:.0f}"`: format with zero decimals, rounding half to even.
The Python code formats a `float`; on the exactly representable values the
claims mention, rounding the rational is identical. -/
def fmtF0 (q : ℚ) : String :=
  let n := q.floor
  let r := q.num - n * (q.den : Int)
  let n' :=
    if 2 * r < (q.den : Int) then n
    else if (q.den : Int) < 2 * r then n + 1
    else if n % 2 = 0 then n else n + 1
  toString n'

/-- Python `float(s)`, exactly over `ℚ`: optional sign, digits with an
optional fractional part, optional exponent.  Inputs Python would also
accept but which never arise from price text (underscore separators,
`inf`, `nan`) are treated as unparsable. -/
def pyFloat? (s : String) : Option ℚ :=
  let cs := stripChars s.data
  let sgnRest : Int × List Char :=
    match cs with
    | '+' :: r => (1, r)
    | '-' :: r => (-1, r)
    | r => (1, r)
  let sgn := sgnRest.1
  let ip := sgnRest.2.takeWhile Char.isDigit
  let rest1 := sgnRest.2.dropWhile Char.isDigit
  let fpRest : List Char × List Char :=
    match rest1 with
    | '.' :: r => (r.takeWhile Char.isDigit, r.dropWhile Char.isDigit)
    | r => ([], r)
  let fp := fpRest.1
  if ip.isEmpty && fp.isEmpty then none
  else
    let mant : Int := sgn * (digitsToNat (ip ++ fp))
    let den : Nat := 10 ^ fp.length
    match fpRest.2 with
    | [] => some (mkRat mant den)
    | 'e' :: r => (pyFloatExp r).map (fun e => scaleByTen mant den e)
    | 'E' :: r => (pyFloatExp r).map (fun e => scaleByTen mant den e)
    | _ => none
where
  /-- Parse a signed all-digit exponent occupying the rest of the input. -/
  pyFloatExp (r : List Char) : Option Int :=
    let sgnRest : Int × List Char :=
      match r with
      | '+' :: t => (1, t)
      | '-' :: t => (-1, t)
      | t => (1, t)
    let ds := sgnRest.2.takeWhile Char.isDigit
    if ds.isEmpty || ¬ (sgnRest.2.dropWhile Char.isDigit).isEmpty then none
    else some (sgnRest.1 * digitsToNat ds)
  /-- `mant / den * 10 ^ e` over `ℚ`, in `mkRat` form. -/
  scaleByTen (mant : Int) (den : Nat) (e : Int) : ℚ :=
    if 0 ≤ e then mkRat (mant * ((10 : Nat) ^ e.toNat : Nat)) den
    else mkRat mant (den * 10 ^ (-e).toNat)

/-! ## Listings and the price filter (`src/scrapers/base.py`) -/

/-- The `Property` class of base.py (lines 7-25). -/
structure Property where
  url : String
  title : String
  price : String
  location : String
  description : String
  images : List String
deriving DecidableEq, Repr

/-- `c.isDigit || c = ','`: one character of the `[\d,]` class. -/
def isDigitOrComma (c : Char) : Bool :=
  c.isDigit || c = ','

/-- Python `re.search(r'£([\d,]+)\s*pp/pcm', s)` (base.py line 48),
returning group 1.  The scanner tries each start position left to right;
at a `£` it takes the maximal run of `[\d,]`, then the maximal run of
whitespace, then requires the literal `pp/pcm` — which is exactly the
backtracking semantics, because no character of `pp/pcm` belongs to
`[\d,]` or `\s`. -/
def searchPpPcm : List Char → Option (List Char)
  | [] => none
  | c :: cs =>
      if c = '£' then
        let ds := cs.takeWhile isDigitOrComma
        let rest := (cs.dropWhile isDigitOrComma).dropWhile Char.isWhitespace
        if ¬ ds.isEmpty ∧ ['p', 'p', '/', 'p', 'c', 'm'].isPrefixOf rest then
          some ds
        else searchPpPcm cs
      else searchPpPcm cs

/-- `float(group.replace(',', ''))` on a `[\d,]+` group: `none` when the
group carries no digit (the `ValueError` path, caught and treated as an
unparsable price). -/
def groupValue? (ds : List Char) : Option ℚ :=
  let digits := ds.filter (fun c => ¬ c = ',')
  if digits.isEmpty then none
  else some (mkRat (Int.ofNat (digitsToNat digits)) 1)

/-- The numeric value `filter_by_price` compares against the threshold
(base.py lines 42-59): the `pp/pcm` branch extracts the per-person figure;
the legacy branch strips `£`, `,`, ` pcm`, ` pw` and converts a weekly
price by `* 52 / 12`.  `none` is the exception path (lines 67-69): the
listing is dropped. -/
def parse_price_for_filter (price_str : String) : Option ℚ :=
  if strContains price_str "pp/pcm" then
    match searchPpPcm price_str.data with
    | some g => groupValue? g
    | none => none
  else
    let clean :=
      strReplace (strReplace (strReplace (strReplace price_str "£" "") "," "")
        " pcm" "") " pw" ""
    match pyFloat? clean with
    | some v =>
        if strContains (lowerStr price_str) "pw" then some (weekly_to_monthly v)
        else some v
    | none => none

/-- `filter_by_price` (base.py lines 35-71).  The guard is Python's
`if not self.max_price_pp: return properties`, which fires when the
threshold is `None` *or* `0`. -/
def filter_by_price (max_price_pp : Option ℚ) (properties : List Property) :
    List Property :=
  match max_price_pp with
  | none => properties
  | some m =>
      if m = 0 then properties
      else
        properties.filter (fun prop =>
          match parse_price_for_filter prop.price with
          | some v => decide (v ≤ m)
          | none => false)

/-! ## Rightmove per-person normalization (`src/scrapers/rightmove.py`) -/

/-- Python `re.search(r'£([\d,]+)', s)` (rightmove.py line 540), returning
group 1: the maximal `[\d,]` run after the first `£` that is followed by at
least one such character. -/
def searchPound : List Char → Option (List Char)
  | [] => none
  | c :: cs =>
      if c = '£' then
        let ds := cs.takeWhile isDigitOrComma
        if ¬ ds.isEmpty then some ds else searchPound cs
      else searchPound cs

/-- The canonical rendering
`f"£{price_per_person:.0f} pp/pcm (£{total_price:.0f} total/{bedrooms}br)"`
(rightmove.py line 544). -/
def render_pp_price (total : ℚ) (bedrooms : Nat) : String :=
  "£" ++ fmtF0 (per_person_price total bedrooms) ++ " pp/pcm (£"
    ++ fmtF0 total ++ " total/" ++ toString bedrooms ++ "br)"

/-- The per-person price calculation at the tail of
`_extract_property_from_element` (rightmove.py lines 535-547): when the
price text was found and contains `£`, extract the first number (spaces
removed first), divide by the bedroom count and re-render canonically;
any failure leaves the price text unchanged. -/
def calc_price_per_person (price : String) (bedrooms : Nat) : String :=
  if price ≠ "Price not found" ∧ (price.data.contains '£') then
    match searchPound (strReplace price " " "").data with
    | some g =>
        match groupValue? g with
        | some total => render_pp_price total bedrooms
        | none => price
    | none => price
  else price

/-- Python `re.search(r'(\d+)\s*bed', line)`, returning group 1 as a
number (rightmove.py line 385). -/
def searchBedCount : List Char → Option Nat
  | [] => none
  | c :: cs =>
      if c.isDigit then
        let ds := c :: cs.takeWhile Char.isDigit
        let rest := (cs.dropWhile Char.isDigit).dropWhile Char.isWhitespace
        if ['b', 'e', 'd'].isPrefixOf rest then some (digitsToNat ds)
        else searchBedCount cs
      else searchBedCount cs

/-- The bedroom-count heuristic (rightmove.py lines 345, 377-388): scan the
text lines for a standalone integer in 1..10, or `<digits> bed`, defaulting
to 1 when neither is found. -/
def extract_bedrooms : List String → Nat
  | [] => 1
  | line :: rest =>
      if lineIsDigit line ∧ 1 ≤ digitsToNat line.data ∧ digitsToNat line.data ≤ 10 then
        digitsToNat line.data
      else
        match searchBedCount (lowerStr line).data with
        | some n => n
        | none => extract_bedrooms rest

/-! ## Schema migration (`src/storage/database.py`, lines 45-100) -/

/-- A row of a legacy `seen_properties` table: `search_config_id` may be
NULL there (the migration guards it with `COALESCE(search_config_id, '')`). -/
structure OldRow where
  property_url : String
  search_config_id : Option String
  title : Option String
  price : Option String
  location : Option String
  first_seen : Int
  last_seen : Int
deriving DecidableEq, Repr

/-- The composite key a legacy row acquires after migration:
`(property_url, COALESCE(search_config_id, ''))`. -/
def OldRow.newKey (r : OldRow) : String × String :=
  (r.property_url, r.search_config_id.getD "")

/-- SQLite's binary collation: lexicographic comparison of the UTF-8
bytes, which coincides with lexicographic comparison of the code points. -/
def textLe (a b : List Char) : Bool :=
  match a, b with
  | [], _ => true
  | _ :: _, [] => false
  | x :: xs, y :: ys =>
      if x.toNat < y.toNat then true
      else if y.toNat < x.toNat then false
      else textLe xs ys

/-- The greater of two TEXT values under the binary collation. -/
def textMax (a b : String) : String :=
  if textLe a.data b.data then b else a

/-- SQL `MAX` aggregate over a nullable TEXT column: the greatest non-null
value under the binary-collation string order, or NULL when every value
is null. -/
def sqlMaxText (vals : List (Option String)) : Option String :=
  vals.foldl
    (fun acc o =>
      match acc, o with
      | none, o => o
      | some a, none => some a
      | some a, some b => some (textMax a b))
    none

/-- SQL `MIN` over the `first_seen` column of a (nonempty) group. -/
def sqlMinInt : List Int → Int
  | [] => 0
  | x :: xs => xs.foldl min x

/-- SQL `MAX` over the `last_seen` column of a (nonempty) group. -/
def sqlMaxInt : List Int → Int
  | [] => 0
  | x :: xs => xs.foldl max x

/-- `_migrate_unique_constraint` (database.py lines 60-100): the
`INSERT ... SELECT property_url, COALESCE(search_config_id,''), MAX(title),
MAX(price), MAX(location), MIN(first_seen), MAX(last_seen) ... GROUP BY
property_url, COALESCE(search_config_id,'')` that repopulates the table
under the composite unique key.  SQL leaves the group order unspecified;
the groups are listed here keyed by `List.dedup` of the keys. -/
def migrate_unique_constraint (rows : List OldRow) : Ledger :=
  ((rows.map OldRow.newKey).dedup).map (fun k =>
    let grp := rows.filter (fun r => r.newKey = k)
    ⟨k.1, k.2,
      sqlMaxText (grp.map OldRow.title),
      sqlMaxText (grp.map OldRow.price),
      sqlMaxText (grp.map OldRow.location),
      sqlMinInt (grp.map OldRow.first_seen),
      sqlMaxInt (grp.map OldRow.last_seen)⟩)

/-- `_needs_migration` (database.py lines 45-58): inspect the persisted
`CREATE TABLE` SQL.  Note the first needle contains a space, so it can
never occur in the space-stripped SQL; detection still works because the
composite constraint text does not contain `UNIQUE(property_url)` as a
substring. -/
def needs_migration (create_sql : Option String) : Bool :=
  match create_sql with
  | none => false
  | some s =>
      let t := strReplace s " " ""
      if strContains t "UNIQUE(property_url, search_config_id)" then false
      else strContains t "UNIQUE(property_url)"

/-- Modelled from the spec (§4.3): the "most recently non-null" value of a
field among colliding rows — the field of the row with the greatest
`last_seen` among those rows where the field is non-null.  This is the
folding rule the spec ascribes to the migration; it is compared against
the `MAX(...)` aggregate the code actually uses. -/
def mostRecentNonNull (rows : List OldRow) (f : OldRow → Option String) :
    Option String :=
  ((rows.filter (fun r => (f r).isSome)).foldl
    (fun best r =>
      match best with
      | none => some r
      | some b => if b.last_seen < r.last_seen then some r else some b)
    none).bind f

/-! ## MD5 (for `hashlib.md5(url).hexdigest()` in `src/config/sheets.py`)

A direct implementation of RFC 1321 over `Nat` with explicit `% 2^32`
reductions, used by the `config_id` construction.  Verified below against
the standard test vectors. -/

/-- Reduce to 32 bits. -/
def u32 (x : Nat) : Nat := x % 4294967296

/-- 32-bit left rotation (input already reduced). -/
def rotl32 (x c : Nat) : Nat := u32 (x <<< c) ||| (x >>> (32 - c))

/-- 32-bit complement (input already reduced). -/
def compl32 (x : Nat) : Nat := 4294967295 - x

/-- The 64 MD5 sine-derived constants. -/
def md5K : List Nat :=
  [0xd76aa478, 0xe8c7b756, 0x242070db, 0xc1bdceee,
   0xf57c0faf, 0x4787c62a, 0xa8304613, 0xfd469501,
   0x698098d8, 0x8b44f7af, 0xffff5bb1, 0x895cd7be,
   0x6b901122, 0xfd987193, 0xa679438e, 0x49b40821,
   0xf61e2562, 0xc040b340, 0x265e5a51, 0xe9b6c7aa,
   0xd62f105d, 0x02441453, 0xd8a1e681, 0xe7d3fbc8,
   0x21e1cde6, 0xc33707d6, 0xf4d50d87, 0x455a14ed,
   0xa9e3e905, 0xfcefa3f8, 0x676f02d9, 0x8d2a4c8a,
   0xfffa3942, 0x8771f681, 0x6d9d6122, 0xfde5380c,
   0xa4beea44, 0x4bdecfa9, 0xf6bb4b60, 0xbebfbc70,
   0x289b7ec6, 0xeaa127fa, 0xd4ef3085, 0x04881d05,
   0xd9d4d039, 0xe6db99e5, 0x1fa27cf8, 0xc4ac5665,
   0xf4292244, 0x432aff97, 0xab9423a7, 0xfc93a039,
   0x655b59c3, 0x8f0ccc92, 0xffeff47d, 0x85845dd1,
   0x6fa87e4f, 0xfe2ce6e0, 0xa3014314, 0x4e0811a1,
   0xf7537e82, 0xbd3af235, 0x2ad7d2bb, 0xeb86d391]

/-- The 64 per-round rotation amounts. -/
def md5S : List Nat :=
  [7, 12, 17, 22, 7, 12, 17, 22, 7, 12, 17, 22, 7, 12, 17, 22,
   5, 9, 14, 20, 5, 9, 14, 20, 5, 9, 14, 20, 5, 9, 14, 20,
   4, 11, 16, 23, 4, 11, 16, 23, 4, 11, 16, 23, 4, 11, 16, 23,
   6, 10, 15, 21, 6, 10, 15, 21, 6, 10, 15, 21, 6, 10, 15, 21]

structure MD5State where
  a : Nat
  b : Nat
  c : Nat
  d : Nat
deriving DecidableEq, Repr

/-- Round function and message-word index for round `i`. -/
def md5FG (i b c d : Nat) : Nat × Nat :=
  if i < 16 then ((b &&& c) ||| (compl32 b &&& d), i)
  else if i < 32 then ((d &&& b) ||| (compl32 d &&& c), (5 * i + 1) % 16)
  else if i < 48 then (b ^^^ c ^^^ d, (3 * i + 5) % 16)
  else (c ^^^ (b ||| compl32 d), (7 * i) % 16)

/-- One MD5 round. -/
def md5Step (m : List Nat) (st : MD5State) (i : Nat) : MD5State :=
  let fg := md5FG i st.b st.c st.d
  let fv := u32 (fg.1 + st.a + md5K.getD i 0 + m.getD fg.2 0)
  ⟨st.d, u32 (st.b + rotl32 fv (md5S.getD i 0)), st.b, st.c⟩

/-- Process one 16-word chunk. -/
def md5Compress (st : MD5State) (m : List Nat) : MD5State :=
  let r := (List.range 64).foldl (md5Step m) st
  ⟨u32 (st.a + r.a), u32 (st.b + r.b), u32 (st.c + r.c), u32 (st.d + r.d)⟩

/-- UTF-8 encoding of one character (Python `str.encode()`). -/
def utf8Encode (ch : Char) : List Nat :=
  let n := ch.toNat
  if n < 0x80 then [n]
  else if n < 0x800 then
    [0xC0 ||| (n >>> 6), 0x80 ||| (n &&& 0x3F)]
  else if n < 0x10000 then
    [0xE0 ||| (n >>> 12), 0x80 ||| ((n >>> 6) &&& 0x3F), 0x80 ||| (n &&& 0x3F)]
  else
    [0xF0 ||| (n >>> 18), 0x80 ||| ((n >>> 12) &&& 0x3F),
     0x80 ||| ((n >>> 6) &&& 0x3F), 0x80 ||| (n &&& 0x3F)]

/-- UTF-8 bytes of a string. -/
def strBytes (s : String) : List Nat := (s.data.map utf8Encode).flatten

/-- MD5 padding: `0x80`, zeros to 56 mod 64, then the bit length as eight
little-endian bytes. -/
def md5Pad (msg : List Nat) : List Nat :=
  let bitLen := 8 * msg.length
  let padZeros := (119 - msg.length % 64) % 64
  msg ++ [0x80] ++ List.replicate padZeros 0
    ++ ((List.range 8).map (fun i => (bitLen >>> (8 * i)) &&& 0xFF))

/-- Split into 64-byte chunks (fuel-indexed; the fuel never runs out since
each step consumes at least one byte). -/
def chunks64 : Nat → List Nat → List (List Nat)
  | 0, _ => []
  | _, [] => []
  | fuel + 1, l => l.take 64 :: chunks64 fuel (l.drop 64)

/-- The 16 little-endian 32-bit words of a 64-byte chunk. -/
def chunkWords (chunk : List Nat) : List Nat :=
  (List.range 16).map (fun g =>
    chunk.getD (4 * g) 0 + 256 * chunk.getD (4 * g + 1) 0
      + 65536 * chunk.getD (4 * g + 2) 0 + 16777216 * chunk.getD (4 * g + 3) 0)

def hexDigit (n : Nat) : Char :=
  if n < 10 then Char.ofNat (48 + n) else Char.ofNat (87 + n)

def byteHex (b : Nat) : List Char := [hexDigit (b / 16), hexDigit (b % 16)]

/-- The hex digest of one state word, least significant byte first. -/
def wordLEHex (w : Nat) : List Char :=
  byteHex (w &&& 0xFF) ++ byteHex ((w >>> 8) &&& 0xFF)
    ++ byteHex ((w >>> 16) &&& 0xFF) ++ byteHex ((w >>> 24) &&& 0xFF)

/-- `hashlib.md5(s.encode()).hexdigest()`. -/
def md5Hex (s : String) : String :=
  let bytes := md5Pad (strBytes s)
  let final := (chunks64 bytes.length bytes).foldl
    (fun st chunk => md5Compress st (chunkWords chunk))
    ⟨0x67452301, 0xefcdab89, 0x98badcfe, 0x10325476⟩
  ⟨wordLEHex final.a ++ wordLEHex final.b ++ wordLEHex final.c ++ wordLEHex final.d⟩

/-! ## Configuration loading (`src/config/sheets.py`) -/

/-- One spreadsheet row as the code sees it: `record.get(key, default)`;
`none` models a missing key. -/
structure SheetRecord where
  url : Option String
  site : Option String
  telegram_chat_ids : Option String
  max_price_pp : Option String
  active : Option String
  description : Option String
deriving DecidableEq, Repr

/-- The `SearchConfig` dataclass (sheets.py lines 16-24), with the price
threshold over `ℚ`. -/
structure SearchConfig where
  url : String
  site : String
  telegram_chat_ids : List String
  max_price_pp : ℚ
  active : Bool
  description : String
  config_id : String
deriving DecidableEq, Repr

/-- `f"config_{i}_{hashlib.md5(record.get('url','').encode()).hexdigest()[:8]}"`
(sheets.py line 114): the identifier depends on the row index `i` as well
as on the URL hash. -/
def make_config_id (i : Nat) (url : String) : String :=
  "config_" ++ toString i ++ "_" ++ ⟨(md5Hex url).data.take 8⟩

/-- Split a character list on commas. -/
def splitOnComma : List Char → List (List Char)
  | [] => [[]]
  | c :: cs =>
      if c = ',' then [] :: splitOnComma cs
      else
        match splitOnComma cs with
        | h :: t => (c :: h) :: t
        | [] => [[c]]

/-- `[chat_id.strip() for chat_id in s.split(',') if chat_id.strip()]`
(sheets.py lines 90-94). -/
def parse_chat_ids (s : String) : List String :=
  ((splitOnComma s.data).map (fun cs => String.mk (stripChars cs))).filter
    (fun t => ¬ t.data.isEmpty)

/-- `max_price_pp` parsing (sheets.py lines 97-101): missing key defaults
to the string `'0'`; an empty string or a `ValueError` yields `0`. -/
def parse_max_price_pp (field : Option String) : ℚ :=
  let s := field.getD "0"
  if s.data.isEmpty then 0
  else
    match pyFloat? s with
    | some v => v
    | none => 0

/-- `active` parsing (sheets.py lines 104-105). -/
def parse_active (field : Option String) : Bool :=
  let s := lowerStr (field.getD "true")
  s = "true" || s = "1" || s = "yes" || s = "on"

/-- Construction of the `SearchConfig` for row `i` (sheets.py lines
107-115). -/
def build_config (i : Nat) (r : SheetRecord) : SearchConfig :=
  { url := r.url.getD ""
    site := lowerStr (r.site.getD "")
    telegram_chat_ids := parse_chat_ids (r.telegram_chat_ids.getD "")
    max_price_pp := parse_max_price_pp r.max_price_pp
    active := parse_active r.active
    description := r.description.getD ""
    config_id := make_config_id i (r.url.getD "") }

/-- The validity gate (sheets.py line 118): Python truthiness of
`config.url and config.site and config.telegram_chat_ids and config.active`. -/
def config_is_valid (c : SearchConfig) : Bool :=
  ¬ c.url.data.isEmpty && ¬ c.site.data.isEmpty
    && ¬ c.telegram_chat_ids.isEmpty && c.active

/-- `load_search_configs` (sheets.py lines 85-129): enumerate the records,
build a config per row (the row index feeds `config_id`), keep the valid
ones. -/
def load_search_configs (records : List SheetRecord) : List SearchConfig :=
  ((records.enum).map (fun p => build_config p.1 p.2)).filter config_is_valid

/-! ## Notification fan-out guard (`src/notifications/telegram.py`) -/

/-- One summary message as handed to the delivery transport; the message
text itself is a collaborator concern, so only the data it is built from is
kept. -/
structure SummaryMsg where
  chat_id : String
  count : Nat
  description : String
deriving DecidableEq, Repr

/-- `send_summary_notification` (telegram.py lines 115-140): returns
immediately when `properties_count == 0`, otherwise sends one summary per
chat id (per-chat delivery failures are caught and do not remove the
attempt). -/
def send_summary_notification (chat_ids : List String) (properties_count : Nat)
    (description : String) : List SummaryMsg :=
  if properties_count = 0 then []
  else chat_ids.map (fun cid => ⟨cid, properties_count, description⟩)

/-! ## The cycle orchestrator (`src/main.py`) -/

/-- Observable actions of one scraping cycle, in program order. -/
inductive Event where
  | recordSeen (url cfgId : String)
  | propertyNotification (url : String) (chat_ids : List String) (description : String)
  | summaryNotification (chat_ids : List String) (count : Nat) (description : String)
  | cleanup (days : Nat) (removed : Nat)
deriving DecidableEq, Repr

def Event.isRecordSeen : Event → Bool
  | .recordSeen _ _ => true
  | _ => false

def Event.isNotification : Event → Bool
  | .propertyNotification _ _ _ => true
  | .summaryNotification _ _ _ => true
  | _ => false

def Event.isCleanup : Event → Bool
  | .cleanup _ _ => true
  | _ => false

/-- The novelty loop of `_process_search_config` (main.py lines 100-111):
walk the scraped listings in order; each listing whose `(url, config_id)`
key is not yet in the ledger is appended to `new_properties` and recorded
with `mark_property_as_seen` immediately — before any notification.
Returns the updated ledger, `new_properties`, and the recording events. -/
def record_new_properties (db : Ledger) (cfgId : String) (now : Int) :
    List Property → Ledger × List Property × List Event
  | [] => (db, [], [])
  | p :: ps =>
      if is_property_seen db p.url cfgId then
        record_new_properties db cfgId now ps
      else
        let db' := mark_property_as_seen db p.url cfgId
          (some p.title) (some p.price) (some p.location) now
        let r := record_new_properties db' cfgId now ps
        (r.1, p :: r.2.1, Event.recordSeen p.url cfgId :: r.2.2)

/-- What `scraper.scrape_properties(config.url)` did for one configuration:
a listing sequence, or a raised exception (`Except.error`), which the
orchestrator's `try/except` catches. -/
abbrev ScrapeOutcome := Except Unit (List Property)

/-- `_process_search_config` (main.py lines 82-132): dispatch on
`config.site` (unsupported kind → log and return); on a scrape exception
the enclosing `except` logs and returns with the ledger untouched;
otherwise record the new listings, then — only if there are any — send one
notification per new listing followed by one summary. -/
def process_search_config (db : Ledger) (now : Int) (config : SearchConfig)
    (outcome : ScrapeOutcome) : Ledger × List Event :=
  if config.site ≠ "openrent" ∧ config.site ≠ "rightmove" then (db, [])
  else
    match outcome with
    | .error _ => (db, [])
    | .ok properties =>
        let r := record_new_properties db config.config_id now properties
        let evs :=
          if r.2.1.isEmpty then []
          else
            (r.2.1.map (fun p =>
              Event.propertyNotification p.url config.telegram_chat_ids
                config.description))
            ++ [Event.summaryNotification config.telegram_chat_ids
                  r.2.1.length config.description]
        (r.1, r.2.2 ++ evs)

/-- `run_scraping_cycle` (main.py lines 48-76): process every
configuration in order — each one isolated by `_process_search_config`'s
own `try/except` — then run `cleanup_old_properties(30)` once. -/
def run_scraping_cycle (db : Ledger) (now : Int)
    (items : List (SearchConfig × ScrapeOutcome)) : Ledger × List Event :=
  let step := items.foldl
    (fun acc it =>
      let r := process_search_config acc.1 now it.1 it.2
      (r.1, acc.2 ++ r.2))
    (db, ([] : List Event))
  let cleaned := cleanup_old_properties step.1 30 now
  (cleaned.1, step.2 ++ [Event.cleanup 30 cleaned.2])

/-! ### Orchestrator lemmas -/

theorem record_new_properties_events (db : Ledger) (cfgId : String) (now : Int)
    (ps : List Property) :
    (record_new_properties db cfgId now ps).2.2
      = (record_new_properties db cfgId now ps).2.1.map
          (fun p => Event.recordSeen p.url cfgId) := by
  induction ps generalizing db with
  | nil => rfl
  | cons p ps ih =>
      simp only [record_new_properties]
      by_cases h : is_property_seen db p.url cfgId = true
      · rw [if_pos h]
        exact ih db
      · rw [if_neg h]
        dsimp only
        simp only [List.map_cons, List.cons.injEq, true_and]
        exact ih _

/-- The generic prefix/suffix position argument: when a list is a block of
events satisfying one kind followed by a block of the other kind, every
index of the first kind precedes every index of the second. -/
theorem recordSeen_before_notification (re ne : List Event)
    (h1 : ∀ e ∈ re, Event.isNotification e = false)
    (h2 : ∀ e ∈ ne, Event.isRecordSeen e = false)
    (i j : Nat) (hi : i < (re ++ ne).length) (hj : j < (re ++ ne).length)
    (hri : Event.isRecordSeen ((re ++ ne)[i]) = true)
    (hnj : Event.isNotification ((re ++ ne)[j]) = true) : i < j := by
  have hilt : i < re.length := by
    by_contra hge
    push_neg at hge
    rw [List.getElem_append_right hge] at hri
    rw [h2 _ (List.getElem_mem _)] at hri
    cases hri
  have hjge : re.length ≤ j := by
    by_contra hlt
    push_neg at hlt
    rw [List.getElem_append_left hlt] at hnj
    rw [h1 _ (List.getElem_mem _)] at hnj
    cases hnj
  omega

theorem process_search_config_ok (db : Ledger) (now : Int)
    (config : SearchConfig) (props : List Property)
    (hsite : config.site = "openrent" ∨ config.site = "rightmove") :
    process_search_config db now config (Except.ok props)
      = (let r := record_new_properties db config.config_id now props
         (r.1,
          r.2.2 ++
            if r.2.1.isEmpty then []
            else
              (r.2.1.map (fun p =>
                Event.propertyNotification p.url config.telegram_chat_ids
                  config.description))
              ++ [Event.summaryNotification config.telegram_chat_ids
                    r.2.1.length config.description])) := by
  unfold process_search_config
  rw [if_neg (by
    rintro ⟨h1, h2⟩
    rcases hsite with h | h
    · exact h1 h
    · exact h2 h)]

/-- A configuration whose scrape raised, or whose site kind is
unsupported, contributes nothing: the ledger is unchanged and no event is
emitted. -/
theorem process_search_config_noop (db : Ledger) (now : Int)
    (config : SearchConfig) (outcome : ScrapeOutcome)
    (hfail : outcome = Except.error ()
      ∨ ¬ (config.site = "openrent" ∨ config.site = "rightmove")) :
    process_search_config db now config outcome = (db, []) := by
  unfold process_search_config
  rcases hfail with h | h
  · subst h
    by_cases hc : config.site ≠ "openrent" ∧ config.site ≠ "rightmove"
    · rw [if_pos hc]
    · rw [if_neg hc]
  · push_neg at h
    rw [if_pos h]

/-! ## Claims C3 and C4 -/

/-- Claim C3: within one processed configuration, every new listing has
`recordSeen` invoked for it before any notification attempt: every
`recordSeen` event precedes every notification event in the emitted order,
and every new listing produces a `recordSeen` event.  When a configuration
yields zero new listings, no fan-out call is made at all — the event list
is empty — and independently `send_summary_notification` sends nothing for
a zero count. -/
theorem claim_C3 (db : Ledger) (now : Int) (config : SearchConfig)
    (props : List Property)
    (hsite : config.site = "openrent" ∨ config.site = "rightmove") :
    (∀ p ∈ (record_new_properties db config.config_id now props).2.1,
      Event.recordSeen p.url config.config_id
        ∈ (process_search_config db now config (Except.ok props)).2)
    ∧ (∀ i j,
        (hi : i < (process_search_config db now config (Except.ok props)).2.length) →
        (hj : j < (process_search_config db now config (Except.ok props)).2.length) →
        Event.isRecordSeen ((process_search_config db now config (Except.ok props)).2[i]) = true →
        Event.isNotification ((process_search_config db now config (Except.ok props)).2[j]) = true →
        i < j)
    ∧ ((record_new_properties db config.config_id now props).2.1 = [] →
        (process_search_config db now config (Except.ok props)).2 = [])
    ∧ (∀ chat_ids description,
        send_summary_notification chat_ids 0 description = []) := by
  rw [process_search_config_ok db now config props hsite]
  have hrec := record_new_properties_events db config.config_id now props
  refine ⟨?_, ?_, ?_, fun chat_ids description => rfl⟩
  · intro p hp
    apply List.mem_append_left
    rw [hrec]
    exact List.mem_map_of_mem _ hp
  · intro i j hi hj hri hnj
    refine recordSeen_before_notification _ _ ?_ ?_ i j hi hj hri hnj
    · intro e he
      rw [hrec] at he
      rcases List.mem_map.mp he with ⟨p, -, rfl⟩
      rfl
    · intro e he
      by_cases hemp :
          (record_new_properties db config.config_id now props).2.1.isEmpty = true
      · rw [if_pos hemp] at he
        cases he
      · rw [if_neg hemp] at he
        rcases List.mem_append.mp he with he | he
        · rcases List.mem_map.mp he with ⟨p, -, rfl⟩
          rfl
        · rw [List.mem_singleton] at he
          subst he
          rfl
  · intro hnone
    dsimp only
    rw [hrec, hnone]
    rfl

/-- Closed witness for C3: one openrent configuration discovering one
fresh listing. -/
theorem claim_C3_witness :
    (∀ p ∈ (record_new_properties [] "config_0_aaaaaaaa" 0
        [⟨"https://x/9", "T", "£900 pcm", "L", "", []⟩]).2.1,
      Event.recordSeen p.url "config_0_aaaaaaaa"
        ∈ (process_search_config [] 0
            ⟨"https://x", "openrent", ["123"], 0, true, "demo", "config_0_aaaaaaaa"⟩
            (Except.ok [⟨"https://x/9", "T", "£900 pcm", "L", "", []⟩])).2)
    ∧ (∀ i j,
        (hi : i < (process_search_config [] 0
            ⟨"https://x", "openrent", ["123"], 0, true, "demo", "config_0_aaaaaaaa"⟩
            (Except.ok [⟨"https://x/9", "T", "£900 pcm", "L", "", []⟩])).2.length) →
        (hj : j < (process_search_config [] 0
            ⟨"https://x", "openrent", ["123"], 0, true, "demo", "config_0_aaaaaaaa"⟩
            (Except.ok [⟨"https://x/9", "T", "£900 pcm", "L", "", []⟩])).2.length) →
        Event.isRecordSeen ((process_search_config [] 0
            ⟨"https://x", "openrent", ["123"], 0, true, "demo", "config_0_aaaaaaaa"⟩
            (Except.ok [⟨"https://x/9", "T", "£900 pcm", "L", "", []⟩])).2[i]) = true →
        Event.isNotification ((process_search_config [] 0
            ⟨"https://x", "openrent", ["123"], 0, true, "demo", "config_0_aaaaaaaa"⟩
            (Except.ok [⟨"https://x/9", "T", "£900 pcm", "L", "", []⟩])).2[j]) = true →
        i < j)
    ∧ ((record_new_properties [] "config_0_aaaaaaaa" 0
        [⟨"https://x/9", "T", "£900 pcm", "L", "", []⟩]).2.1 = [] →
        (process_search_config [] 0
            ⟨"https://x", "openrent", ["123"], 0, true, "demo", "config_0_aaaaaaaa"⟩
            (Except.ok [⟨"https://x/9", "T", "£900 pcm", "L", "", []⟩])).2 = [])
    ∧ (∀ chat_ids description,
        send_summary_notification chat_ids 0 description = []) :=
  claim_C3 [] 0
    ⟨"https://x", "openrent", ["123"], 0, true, "demo", "config_0_aaaaaaaa"⟩
    [⟨"https://x/9", "T", "£900 pcm", "L", "", []⟩] (Or.inl rfl)

/-- Claim C4: per-configuration failure is isolated.  A configuration
whose extractor raises, or whose site kind is unsupported, leaves the
whole cycle — final ledger and emitted events alike — exactly as if that
configuration were absent: every subsequent configuration is still
processed and its results recorded. -/
theorem claim_C4 (db : Ledger) (now : Int)
    (pre post : List (SearchConfig × ScrapeOutcome))
    (config : SearchConfig) (outcome : ScrapeOutcome)
    (hfail : outcome = Except.error ()
      ∨ ¬ (config.site = "openrent" ∨ config.site = "rightmove")) :
    run_scraping_cycle db now (pre ++ (config, outcome) :: post)
      = run_scraping_cycle db now (pre ++ post) := by
  have hnoop : ∀ d : Ledger, process_search_config d now config outcome = (d, []) :=
    fun d => process_search_config_noop d now config outcome hfail
  unfold run_scraping_cycle
  have hfold : ∀ init : Ledger × List Event,
      (pre ++ (config, outcome) :: post).foldl
        (fun acc it =>
          let r := process_search_config acc.1 now it.1 it.2
          (r.1, acc.2 ++ r.2))
        init
      = (pre ++ post).foldl
        (fun acc it =>
          let r := process_search_config acc.1 now it.1 it.2
          (r.1, acc.2 ++ r.2))
        init := by
    intro init
    rw [List.foldl_append, List.foldl_append, List.foldl_cons]
    congr 1
    rw [hnoop]
    simp
  rw [hfold]

/-- Closed witness for C4: a cycle of three configurations where the
middle one's extraction raises. -/
theorem claim_C4_witness :
    run_scraping_cycle [] 0
      ([(⟨"https://a", "openrent", ["1"], 0, true, "a", "config_0_a"⟩,
          Except.ok [⟨"https://a/1", "T", "£900 pcm", "L", "", []⟩])]
        ++ (⟨"https://b", "rightmove", ["1"], 0, true, "b", "config_1_b"⟩,
             Except.error ())
          :: [(⟨"https://c", "openrent", ["1"], 0, true, "c", "config_2_c"⟩,
                Except.ok [⟨"https://c/1", "T", "£950 pcm", "L", "", []⟩])])
      = run_scraping_cycle [] 0
        ([(⟨"https://a", "openrent", ["1"], 0, true, "a", "config_0_a"⟩,
            Except.ok [⟨"https://a/1", "T", "£900 pcm", "L", "", []⟩])]
          ++ [(⟨"https://c", "openrent", ["1"], 0, true, "c", "config_2_c"⟩,
                Except.ok [⟨"https://c/1", "T", "£950 pcm", "L", "", []⟩])]) :=
  claim_C4 [] 0 _ _ _ _ (Or.inl rfl)

/-! ## Claim C8 -/

theorem cleanup_kept_iff (db : Ledger) (days_old now : Int) (e : SeenRow) :
    e ∈ (cleanup_old_properties db days_old now).1 ↔
      e ∈ db ∧ ¬ (e.last_seen < now - days_old) := by
  unfold cleanup_old_properties
  dsimp only
  rw [List.mem_filter]
  simp

theorem cleanup_count (db : Ledger) (days_old now : Int) :
    (cleanup_old_properties db days_old now).2
      = (db.filter (fun e => e.last_seen < now - days_old)).length := by
  unfold cleanup_old_properties
  dsimp only
  simp only [decide_not]
  have h := @List.length_eq_length_filter_add SeenRow db
    (fun e : SeenRow => decide (e.last_seen < now - days_old))
  omega

theorem process_search_config_no_cleanup (db : Ledger) (now : Int)
    (config : SearchConfig) (outcome : ScrapeOutcome) :
    ∀ ev ∈ (process_search_config db now config outcome).2,
      ev.isCleanup = false := by
  intro ev hev
  unfold process_search_config at hev
  by_cases hc : config.site ≠ "openrent" ∧ config.site ≠ "rightmove"
  · rw [if_pos hc] at hev
    cases hev
  · rw [if_neg hc] at hev
    match outcome with
    | .error _ => cases hev
    | .ok props =>
        dsimp only at hev
        rcases List.mem_append.mp hev with h | h
        · rw [record_new_properties_events] at h
          rcases List.mem_map.mp h with ⟨p, -, rfl⟩
          rfl
        · by_cases hemp :
            (record_new_properties db config.config_id now props).2.1.isEmpty = true
          · rw [if_pos hemp] at h
            cases h
          · rw [if_neg hemp] at h
            rcases List.mem_append.mp h with h | h
            · rcases List.mem_map.mp h with ⟨p, -, rfl⟩
              rfl
            · rw [List.mem_singleton] at h
              subst h
              rfl

theorem cycle_fold_no_cleanup (items : List (SearchConfig × ScrapeOutcome))
    (now : Int) :
    ∀ init : Ledger × List Event, (∀ ev ∈ init.2, ev.isCleanup = false) →
      ∀ ev ∈ (items.foldl
        (fun acc it =>
          let r := process_search_config acc.1 now it.1 it.2
          (r.1, acc.2 ++ r.2))
        init).2, ev.isCleanup = false := by
  induction items with
  | nil => exact fun init h => h
  | cons it items ih =>
      intro init hinit
      rw [List.foldl_cons]
      refine ih _ ?_
      intro ev hev
      rcases List.mem_append.mp hev with h | h
      · exact hinit ev h
      · exact process_search_config_no_cleanup _ _ _ _ ev h

/-- Claim C8: `cleanup_old_properties` deletes exactly the rows whose
`last_seen` predates `now - days`, the computed removal count is exactly
the number of such rows, a row 31 days old is removed by a 30-day horizon
while a 29-day-old row is retained, and in a cycle the single cleanup
event comes after every configuration's events. -/
theorem claim_C8 (db : Ledger) (days_old now : Int)
    (items : List (SearchConfig × ScrapeOutcome)) :
    (∀ e : SeenRow, e ∈ (cleanup_old_properties db days_old now).1 ↔
        e ∈ db ∧ ¬ (e.last_seen < now - days_old))
    ∧ (cleanup_old_properties db days_old now).2
        = (db.filter (fun e => e.last_seen < now - days_old)).length
    ∧ (∀ e ∈ db, e.last_seen = now - 31 →
        e ∉ (cleanup_old_properties db 30 now).1)
    ∧ (∀ e ∈ db, e.last_seen = now - 29 →
        e ∈ (cleanup_old_properties db 30 now).1)
    ∧ (∃ evs n, (run_scraping_cycle db now items).2 = evs ++ [Event.cleanup 30 n]
        ∧ ∀ ev ∈ evs, ev.isCleanup = false) := by
  refine ⟨cleanup_kept_iff db days_old now, cleanup_count db days_old now, ?_, ?_, ?_⟩
  · intro e he hlast hmem
    rcases (cleanup_kept_iff db 30 now e).mp hmem with ⟨-, hkeep⟩
    apply hkeep
    omega
  · intro e he hlast
    refine (cleanup_kept_iff db 30 now e).mpr ⟨he, ?_⟩
    omega
  · unfold run_scraping_cycle
    dsimp only
    refine ⟨_, _, rfl, ?_⟩
    exact cycle_fold_no_cleanup items now (db, [])
      (fun ev h => absurd h (List.not_mem_nil ev))

/-- Closed witness for C8: a two-row ledger, one row 31 days stale and one
29 days stale, evicted at the 30-day horizon after an empty cycle. -/
theorem claim_C8_witness :
    (∀ e : SeenRow, e ∈ (cleanup_old_properties
        [⟨"https://x/1", "c", none, none, none, 69, 69⟩,
         ⟨"https://x/2", "c", none, none, none, 71, 71⟩] 30 100).1 ↔
        e ∈ ([⟨"https://x/1", "c", none, none, none, 69, 69⟩,
             ⟨"https://x/2", "c", none, none, none, 71, 71⟩] : Ledger)
          ∧ ¬ (e.last_seen < 100 - 30))
    ∧ (cleanup_old_properties
        [⟨"https://x/1", "c", none, none, none, 69, 69⟩,
         ⟨"https://x/2", "c", none, none, none, 71, 71⟩] 30 100).2
        = (([⟨"https://x/1", "c", none, none, none, 69, 69⟩,
            ⟨"https://x/2", "c", none, none, none, 71, 71⟩] : Ledger).filter
            (fun e => e.last_seen < 100 - 30)).length
    ∧ (∀ e ∈ ([⟨"https://x/1", "c", none, none, none, 69, 69⟩,
              ⟨"https://x/2", "c", none, none, none, 71, 71⟩] : Ledger),
        e.last_seen = 100 - 31 →
        e ∉ (cleanup_old_properties
          [⟨"https://x/1", "c", none, none, none, 69, 69⟩,
           ⟨"https://x/2", "c", none, none, none, 71, 71⟩] 30 100).1)
    ∧ (∀ e ∈ ([⟨"https://x/1", "c", none, none, none, 69, 69⟩,
              ⟨"https://x/2", "c", none, none, none, 71, 71⟩] : Ledger),
        e.last_seen = 100 - 29 →
        e ∈ (cleanup_old_properties
          [⟨"https://x/1", "c", none, none, none, 69, 69⟩,
           ⟨"https://x/2", "c", none, none, none, 71, 71⟩] 30 100).1)
    ∧ (∃ evs n, (run_scraping_cycle
          [⟨"https://x/1", "c", none, none, none, 69, 69⟩,
           ⟨"https://x/2", "c", none, none, none, 71, 71⟩] 100 []).2
          = evs ++ [Event.cleanup 30 n]
        ∧ ∀ ev ∈ evs, ev.isCleanup = false) :=
  claim_C8
    [⟨"https://x/1", "c", none, none, none, 69, 69⟩,
     ⟨"https://x/2", "c", none, none, none, 71, 71⟩] 30 100 []

/-! ## Claims C5 and C10 (threshold filtering) -/

/-- Claim C5: with no threshold, `filter_by_price` is the identity; with a
(nonzero) threshold `m`, it keeps exactly the listings whose parsed
per-person price is `≤ m` — so a listing exactly at the cap passes and an
unparsable listing is dropped.  The concrete conjunct is the spec's §8
scenario: per-person prices 1000, 1500 and 1300 (from `£300 pw`) pass a
1500 cap while a `£2000 pcm`/1-bedroom listing is excluded. -/
theorem claim_C5 (properties : List Property) (m : ℚ) (hm : m ≠ 0) :
    filter_by_price none properties = properties
    ∧ (∀ p, p ∈ filter_by_price (some m) properties ↔
        p ∈ properties ∧ ∃ v, parse_price_for_filter p.price = some v ∧ v ≤ m)
    ∧ (∀ p ∈ properties, parse_price_for_filter p.price = none →
        p ∉ filter_by_price (some m) properties)
    ∧ (∀ p ∈ properties, parse_price_for_filter p.price = some m →
        p ∈ filter_by_price (some m) properties)
    ∧ filter_by_price (some 1500)
        [⟨"u1", "t1", "£1000 pp/pcm (£4000 total/4br)", "L", "", []⟩,
         ⟨"u2", "t2", "£1500 pp/pcm (£1500 total/1br)", "L", "", []⟩,
         ⟨"u3", "t3", "£300 pw", "L", "", []⟩,
         ⟨"u4", "t4", "£2000 pcm", "L", "", []⟩]
      = [⟨"u1", "t1", "£1000 pp/pcm (£4000 total/4br)", "L", "", []⟩,
         ⟨"u2", "t2", "£1500 pp/pcm (£1500 total/1br)", "L", "", []⟩,
         ⟨"u3", "t3", "£300 pw", "L", "", []⟩] := by
  have hmem : ∀ p, p ∈ filter_by_price (some m) properties ↔
      p ∈ properties ∧ ∃ v, parse_price_for_filter p.price = some v ∧ v ≤ m := by
    intro p
    show p ∈ (if m = 0 then properties
      else properties.filter (fun prop =>
        match parse_price_for_filter prop.price with
        | some v => decide (v ≤ m)
        | none => false)) ↔ _
    rw [if_neg hm, List.mem_filter]
    constructor
    · rintro ⟨hp, hpred⟩
      refine ⟨hp, ?_⟩
      rcases hv : parse_price_for_filter p.price with - | v
      · rw [hv] at hpred
        cases hpred
      · rw [hv] at hpred
        exact ⟨v, rfl, of_decide_eq_true hpred⟩
    · rintro ⟨hp, v, hv, hle⟩
      refine ⟨hp, ?_⟩
      rw [hv]
      exact decide_eq_true hle
  refine ⟨rfl, hmem, ?_, ?_, by decide⟩
  · intro p hp hnone hmemf
    rcases (hmem p).mp hmemf with ⟨-, v, hv, -⟩
    rw [hnone] at hv
    cases hv
  · intro p hp hsome
    exact (hmem p).mpr ⟨hp, m, hsome, le_refl m⟩

/-- Closed witness for C5 at the spec's cap of 1500. -/
theorem claim_C5_witness :
    filter_by_price none
        [⟨"u5", "t5", "no price here", "L", "", []⟩]
      = [⟨"u5", "t5", "no price here", "L", "", []⟩]
    ∧ (∀ p, p ∈ filter_by_price (some 1500)
          [⟨"u5", "t5", "no price here", "L", "", []⟩] ↔
        p ∈ [⟨"u5", "t5", "no price here", "L", "", []⟩]
          ∧ ∃ v, parse_price_for_filter p.price = some v ∧ v ≤ 1500)
    ∧ (∀ p ∈ ([⟨"u5", "t5", "no price here", "L", "", []⟩] : List Property),
        parse_price_for_filter p.price = none →
        p ∉ filter_by_price (some 1500)
          [⟨"u5", "t5", "no price here", "L", "", []⟩])
    ∧ (∀ p ∈ ([⟨"u5", "t5", "no price here", "L", "", []⟩] : List Property),
        parse_price_for_filter p.price = some 1500 →
        p ∈ filter_by_price (some 1500)
          [⟨"u5", "t5", "no price here", "L", "", []⟩])
    ∧ filter_by_price (some 1500)
        [⟨"u1", "t1", "£1000 pp/pcm (£4000 total/4br)", "L", "", []⟩,
         ⟨"u2", "t2", "£1500 pp/pcm (£1500 total/1br)", "L", "", []⟩,
         ⟨"u3", "t3", "£300 pw", "L", "", []⟩,
         ⟨"u4", "t4", "£2000 pcm", "L", "", []⟩]
      = [⟨"u1", "t1", "£1000 pp/pcm (£4000 total/4br)", "L", "", []⟩,
         ⟨"u2", "t2", "£1500 pp/pcm (£1500 total/1br)", "L", "", []⟩,
         ⟨"u3", "t3", "£300 pw", "L", "", []⟩] :=
  claim_C5 [⟨"u5", "t5", "no price here", "L", "", []⟩] 1500 (by decide)

/-- Claim C10: a configured threshold of `0` — which is also what the
loader substitutes for a missing, empty, or unparsable `max_price_pp`
field — disables filtering entirely, because Python's
`if not self.max_price_pp` treats `0` as falsy: the whole input list is
returned, unparsable prices included, rather than every listing being
excluded. -/
theorem claim_C10 :
    (∀ properties : List Property, filter_by_price (some 0) properties = properties)
    ∧ parse_max_price_pp none = 0
    ∧ parse_max_price_pp (some "") = 0
    ∧ parse_max_price_pp (some "N/A") = 0
    ∧ filter_by_price (some (parse_max_price_pp none))
        [⟨"u6", "t6", "price unavailable", "L", "", []⟩]
      = [⟨"u6", "t6", "price unavailable", "L", "", []⟩] := by
  refine ⟨?_, by decide, by decide, by decide, by decide⟩
  intro properties
  rfl

/-! ## Claim C6 (price normalization) -/

/-- Claim C6: a weekly (`pw`) price is converted to monthly via
`total * 52 / 12` before being treated as a monthly figure in the filter's
legacy branch (first conjunct, for every price string taking that branch,
and `weekly_to_monthly` is literally that formula); the per-person value is
the float division of the monthly total by the bedroom count, which
defaults to 1 when the heuristic finds nothing; and the Rightmove
extractor re-renders into the canonical
`"£{pp} pp/pcm (£{total} total/{bed}br)"` shape.  Concretely,
`"£2000 pcm"` with 4 bedrooms yields per-person 500 and canonical
`"£500 pp/pcm (£2000 total/4br)"`, and `"£300 pw"` parses to monthly
`300 * 52 / 12 = 1300`, which with one bedroom is also the per-person
value. -/
theorem claim_C6 (price_str : String)
    (h1 : strContains price_str "pp/pcm" = false)
    (h2 : strContains (lowerStr price_str) "pw" = true) :
    parse_price_for_filter price_str
      = (pyFloat? (strReplace (strReplace (strReplace
          (strReplace price_str "£" "") "," "") " pcm" "") " pw" "")).map
            weekly_to_monthly
    ∧ (∀ v : ℚ, weekly_to_monthly v = v * 52 / 12)
    ∧ (∀ (total : ℚ) (b : Nat), per_person_price total b = total / b)
    ∧ calc_price_per_person "£2000 pcm" 4 = "£500 pp/pcm (£2000 total/4br)"
    ∧ per_person_price 2000 4 = 500
    ∧ parse_price_for_filter "£300 pw" = some 1300
    ∧ weekly_to_monthly 300 = 1300
    ∧ per_person_price 1300 1 = 1300
    ∧ extract_bedrooms [] = 1
    ∧ extract_bedrooms ["Maida Vale flat", "£300 pw"] = 1 := by
  refine ⟨?_, weekly_to_monthly_eq, per_person_price_eq,
    by decide, by decide, by decide, by decide, by decide, rfl, by decide⟩
  unfold parse_price_for_filter
  rw [if_neg (by simp [h1])]
  dsimp only
  cases hv : pyFloat? (strReplace (strReplace (strReplace
      (strReplace price_str "£" "") "," "") " pcm" "") " pw" "") with
  | none => rfl
  | some v =>
      show (if strContains (lowerStr price_str) "pw" = true
        then some (weekly_to_monthly v) else some v) = _
      rw [if_pos h2]
      rfl

/-- Closed witness for C6 at the spec's weekly example `"£300 pw"`. -/
theorem claim_C6_witness :
    parse_price_for_filter "£300 pw"
      = (pyFloat? (strReplace (strReplace (strReplace
          (strReplace "£300 pw" "£" "") "," "") " pcm" "") " pw" "")).map
            weekly_to_monthly
    ∧ (∀ v : ℚ, weekly_to_monthly v = v * 52 / 12)
    ∧ (∀ (total : ℚ) (b : Nat), per_person_price total b = total / b)
    ∧ calc_price_per_person "£2000 pcm" 4 = "£500 pp/pcm (£2000 total/4br)"
    ∧ per_person_price 2000 4 = 500
    ∧ parse_price_for_filter "£300 pw" = some 1300
    ∧ weekly_to_monthly 300 = 1300
    ∧ per_person_price 1300 1 = 1300
    ∧ extract_bedrooms [] = 1
    ∧ extract_bedrooms ["Maida Vale flat", "£300 pw"] = 1 :=
  claim_C6 "£300 pw" (by decide) (by decide)

/-! ## Claim C7 (schema migration) -/

/-- Counterexample to C7 as stated: two legacy rows collide under the
composite key; the row with the later `lastSeenAt` carries title `"a"`,
the earlier one `"b"`.  The spec's folding rule ("the most recently
non-null title") picks `"a"`, but the migration's `MAX(title)` aggregate
picks the lexicographically greatest non-null value `"b"`. -/
theorem claim_C7_counterexample :
    migrate_unique_constraint
        [⟨"u", some "c", some "b", none, none, 0, 1⟩,
         ⟨"u", some "c", some "a", none, none, 0, 2⟩]
      = [⟨"u", "c", some "b", none, none, 0, 2⟩]
    ∧ mostRecentNonNull
        [⟨"u", some "c", some "b", none, none, 0, 1⟩,
         ⟨"u", some "c", some "a", none, none, 0, 2⟩] OldRow.title = some "a"
    ∧ (some "b" : Option String) ≠ some "a" :=
  ⟨by decide, by decide, by decide⟩

/-- Lifting a key-preserving map over a duplicate-free key list keeps the
keys duplicate-free. -/
theorem nodup_keys_of_map (keys : List (String × String))
    (f : String × String → SeenRow)
    (hf : ∀ k, ((f k).property_url, (f k).search_config_id) = k)
    (hnd : keys.Nodup) :
    ((keys.map f).map (fun e => (e.property_url, e.search_config_id))).Nodup := by
  rw [List.map_map]
  rw [show ((fun e : SeenRow => (e.property_url, e.search_config_id)) ∘ f) = id
    from funext fun k => hf k]
  rw [List.map_id]
  exact hnd

/-- Claim C7 as amended: the migration loses no `(url, configId)` pair —
every legacy row's composite key survives (in particular both `(url,
config1)` and `(url, config2)` when both were present) — and each group of
colliding rows is folded by the earliest `first_seen`, the latest
`last_seen`, and the SQL `MAX` (the lexicographically greatest non-null
value, *not* the most recently non-null one) of `title`, `price` and
`location`; the migrated table satisfies the composite uniqueness
constraint. -/
theorem claim_C7 (rows : List OldRow) :
    (∀ r ∈ rows, ∃ e ∈ migrate_unique_constraint rows,
        e.property_url = r.property_url
        ∧ e.search_config_id = r.search_config_id.getD "")
    ∧ (∀ e ∈ migrate_unique_constraint rows,
        e.title = sqlMaxText ((rows.filter (fun r =>
          r.newKey = (e.property_url, e.search_config_id))).map OldRow.title)
        ∧ e.price = sqlMaxText ((rows.filter (fun r =>
          r.newKey = (e.property_url, e.search_config_id))).map OldRow.price)
        ∧ e.location = sqlMaxText ((rows.filter (fun r =>
          r.newKey = (e.property_url, e.search_config_id))).map OldRow.location)
        ∧ e.first_seen = sqlMinInt ((rows.filter (fun r =>
          r.newKey = (e.property_url, e.search_config_id))).map OldRow.first_seen)
        ∧ e.last_seen = sqlMaxInt ((rows.filter (fun r =>
          r.newKey = (e.property_url, e.search_config_id))).map OldRow.last_seen))
    ∧ ((migrate_unique_constraint rows).map
        (fun e => (e.property_url, e.search_config_id))).Nodup := by
  refine ⟨?_, ?_, ?_⟩
  · intro r hr
    have hk : r.newKey ∈ (rows.map OldRow.newKey).dedup :=
      List.mem_dedup.mpr (List.mem_map_of_mem _ hr)
    exact ⟨_, List.mem_map_of_mem _ hk, rfl, rfl⟩
  · intro e he
    rcases List.mem_map.mp he with ⟨k, hk, rfl⟩
    refine ⟨?_, ?_, ?_, ?_, ?_⟩ <;> rfl
  · exact nodup_keys_of_map _ _ (fun k => rfl) (List.nodup_dedup _)

/-- Closed witness for C7 at the spec's migration scenario: one URL seen
under two different config ids migrates to two rows. -/
theorem claim_C7_witness :
    (∀ r ∈ ([⟨"u", some "config1", some "T", none, none, 5, 6⟩,
             ⟨"u", some "config2", some "T", none, none, 7, 8⟩] : List OldRow),
      ∃ e ∈ migrate_unique_constraint
          [⟨"u", some "config1", some "T", none, none, 5, 6⟩,
           ⟨"u", some "config2", some "T", none, none, 7, 8⟩],
        e.property_url = r.property_url
        ∧ e.search_config_id = r.search_config_id.getD "")
    ∧ (∀ e ∈ migrate_unique_constraint
          [⟨"u", some "config1", some "T", none, none, 5, 6⟩,
           ⟨"u", some "config2", some "T", none, none, 7, 8⟩],
        e.title = sqlMaxText (([⟨"u", some "config1", some "T", none, none, 5, 6⟩,
             ⟨"u", some "config2", some "T", none, none, 7, 8⟩].filter (fun r =>
          r.newKey = (e.property_url, e.search_config_id))).map OldRow.title)
        ∧ e.price = sqlMaxText (([⟨"u", some "config1", some "T", none, none, 5, 6⟩,
             ⟨"u", some "config2", some "T", none, none, 7, 8⟩].filter (fun r =>
          r.newKey = (e.property_url, e.search_config_id))).map OldRow.price)
        ∧ e.location = sqlMaxText (([⟨"u", some "config1", some "T", none, none, 5, 6⟩,
             ⟨"u", some "config2", some "T", none, none, 7, 8⟩].filter (fun r =>
          r.newKey = (e.property_url, e.search_config_id))).map OldRow.location)
        ∧ e.first_seen = sqlMinInt (([⟨"u", some "config1", some "T", none, none, 5, 6⟩,
             ⟨"u", some "config2", some "T", none, none, 7, 8⟩].filter (fun r =>
          r.newKey = (e.property_url, e.search_config_id))).map OldRow.first_seen)
        ∧ e.last_seen = sqlMaxInt (([⟨"u", some "config1", some "T", none, none, 5, 6⟩,
             ⟨"u", some "config2", some "T", none, none, 7, 8⟩].filter (fun r =>
          r.newKey = (e.property_url, e.search_config_id))).map OldRow.last_seen))
    ∧ ((migrate_unique_constraint
          [⟨"u", some "config1", some "T", none, none, 5, 6⟩,
           ⟨"u", some "config2", some "T", none, none, 7, 8⟩]).map
        (fun e => (e.property_url, e.search_config_id))).Nodup :=
  claim_C7 [⟨"u", some "config1", some "T", none, none, 5, 6⟩,
            ⟨"u", some "config2", some "T", none, none, 7, 8⟩]

/-! ## Claim C9 (configId derivation) -/

set_option maxRecDepth 100000 in
/-- Counterexample to C9 as stated: one load whose rows 0 and 1 carry the
*same* source URL (and identical fields throughout) yields two
configurations with *different* `config_id`s, because the identifier is
`f"config_{i}_{md5(url)[:8]}"` and embeds the row position `i`. -/
theorem claim_C9_counterexample :
    (load_search_configs
        [⟨some "https://example.com/search", some "openrent", some "123",
          none, none, none⟩,
         ⟨some "https://example.com/search", some "openrent", some "123",
          none, none, none⟩]).map SearchConfig.url
      = ["https://example.com/search", "https://example.com/search"]
    ∧ ((load_search_configs
        [⟨some "https://example.com/search", some "openrent", some "123",
          none, none, none⟩,
         ⟨some "https://example.com/search", some "openrent", some "123",
          none, none, none⟩]).map SearchConfig.config_id)[0]?
      ≠ ((load_search_configs
        [⟨some "https://example.com/search", some "openrent", some "123",
          none, none, none⟩,
         ⟨some "https://example.com/search", some "openrent", some "123",
          none, none, none⟩]).map SearchConfig.config_id)[1]? :=
  ⟨by decide, by decide⟩

/-- Claim C9 as amended: `configId` is a deterministic function of the
configuration's *row index* and source URL — a reload that presents the
same URL at the same position reproduces the same id (no other field and
no other row influences it), and every loaded configuration's id is
`make_config_id` of its row index and url — but it is not a function of
the URL alone: the counterexample shows the same URL at two positions
receives two different ids. -/
theorem claim_C9 (i : Nat) (r r' : SheetRecord)
    (h : r.url.getD "" = r'.url.getD "") :
    (build_config i r).config_id = (build_config i r').config_id
    ∧ (build_config i r).config_id = make_config_id i (r.url.getD "")
    ∧ (∀ (records : List SheetRecord) (c : SearchConfig),
        c ∈ load_search_configs records →
        ∃ j rec, records[j]? = some rec
          ∧ c.config_id = make_config_id j (rec.url.getD "")) := by
  refine ⟨?_, rfl, ?_⟩
  · show make_config_id i (r.url.getD "") = make_config_id i (r'.url.getD "")
    rw [h]
  · intro records c hc
    unfold load_search_configs at hc
    rcases List.mem_filter.mp hc with ⟨hmem, -⟩
    rcases List.mem_map.mp hmem with ⟨p, hp, rfl⟩
    exact ⟨p.1, p.2, List.mem_enum_iff_getElem?.mp hp, rfl⟩

/-- Closed witness for C9 (amended): two records sharing a URL but
differing in every other field get the same id at the same row index. -/
theorem claim_C9_witness :
    (build_config 3 ⟨some "https://example.com/search", some "openrent",
        some "123", none, none, some "one"⟩).config_id
      = (build_config 3 ⟨some "https://example.com/search", some "rightmove",
        some "456", some "1500", some "true", some "two"⟩).config_id
    ∧ (build_config 3 ⟨some "https://example.com/search", some "openrent",
        some "123", none, none, some "one"⟩).config_id
      = make_config_id 3
          ((some "https://example.com/search" : Option String).getD "")
    ∧ (∀ (records : List SheetRecord) (c : SearchConfig),
        c ∈ load_search_configs records →
        ∃ j rec, records[j]? = some rec
          ∧ c.config_id = make_config_id j (rec.url.getD "")) :=
  claim_C9 3
    ⟨some "https://example.com/search", some "openrent", some "123",
      none, none, some "one"⟩
    ⟨some "https://example.com/search", some "rightmove", some "456",
      some "1500", some "true", some "two"⟩ rfl

end Scraper
